import Mathlib

/-!
Verification of the alerts demonstration app: the alert store operations,
the Unicorn and Reactor component classes, the SSR/HTMX random-alert views,
the clear_alerts management command, the liveview room-uuid template tag and
websocket route, the reactive-engine diff/dispatch design, and the
performance-data constants.
-/

set_option maxHeartbeats 1000000

/-- Modelled from the spec: the relational storage of domain records is an
external collaborator, "a plain create/read/delete store" (the Alert model in
alerts/models.py is not under src/).  An Alert row carries the fields the
components project: id, type, description, created_at. -/
structure Alert where
  id : Nat
  type : String
  description : String
  created_at : Nat
deriving DecidableEq

/-- Modelled from the spec: the create/read/delete store of Alert rows, with
the auto-assigned primary key modelled as a next-id counter. -/
structure Store where
  rows : List Alert
  nextId : Nat
deriving DecidableEq

/-- Modelled from the spec: `create` inserts one new row with a fresh id and
the given field values; `created_at` comes from the clock argument `now`. -/
def Store.create (s : Store) (ty ds : String) (now : Nat) : Store × Alert :=
  let a : Alert := ⟨s.nextId, ty, ds, now⟩
  (⟨s.rows ++ [a], s.nextId + 1⟩, a)

/-- Modelled from the spec: `Alert.objects.filter(id=alert_id).delete()`. -/
def Store.deleteById (s : Store) (i : Nat) : Store :=
  ⟨s.rows.filter (fun a => a.id ≠ i), s.nextId⟩

/-- Modelled from the spec: `Alert.objects.all().count()`. -/
def Store.count (s : Store) : Nat := s.rows.length

def Store.empty : Store := ⟨[], 1⟩

/-- Modelled from the spec: input-validation rules are an external collaborator
(AlertForm in alerts/forms.py is not under src/).  The form is valid exactly
when the type field holds one of the three alert-type choices; the description
is optional (the views render a fallback when it is empty). -/
def formIsValid (ty _ds : String) : Bool :=
  ty = "INFO" || ty = "WARNING" || ty = "CRITICAL"

/-- Modelled from the spec: the form's error mapping, nonempty exactly when
validation fails (Django reports the offending field with a message). -/
def formErrors (ty ds : String) : List (String × String) :=
  if formIsValid ty ds then [] else
    [(("type"), ("Select a valid choice."))]

/-- A client call emitted by a component (`self.call(name, args...)`). -/
structure Call where
  name : String
  args : List String
deriving DecidableEq

/-- State of the django-unicorn component AlertListView
(src/alerts/components/alert_list.py): its class attributes. -/
structure AlertListView where
  alerts : List Alert
  show_modal : Bool
  show_create_modal : Bool
  selected_alert : Option Alert
  type : String
  description : String
deriving DecidableEq

/-- Class-attribute defaults of AlertListView. -/
def AlertListView.init : AlertListView :=
  { alerts := []
    show_modal := false
    show_create_modal := false
    selected_alert := none
    type := ""
    description := "" }

/-- `load_alerts`: `self.alerts = list(Alert.objects.all().values(...))`. -/
def AlertListView.load_alerts (c : AlertListView) (s : Store) : AlertListView :=
  { c with alerts := s.rows }

/-- `mount`: calls `load_alerts`. -/
def AlertListView.mount (c : AlertListView) (s : Store) : AlertListView :=
  c.load_alerts s

/-- `create_random_alert` of AlertListView: picks a random type, creates the
alert, reloads, and emits one showNotification call.  The random choice is the
explicit argument `choice`, the clock is `now`. -/
def AlertListView.create_random_alert (c : AlertListView) (s : Store)
    (choice : Fin 3) (now : Nat) : AlertListView × Store × List Call :=
  let alert_types : List String := ["INFO", "WARNING", "CRITICAL"]
  let random_type := alert_types.get choice
  let s' := (s.create random_type ("Random alert") now).1
  let c' := c.load_alerts s'
  (c', s', [⟨("showNotification"),
    [("Random " ++ random_type ++ " alert created!"), ("success")]⟩])

/-- `create_alert` of AlertListView: if the form validates, create the alert
from the form fields, reload, close the modal, clear the fields and emit one
showNotification call; otherwise do nothing. -/
def AlertListView.create_alert (c : AlertListView) (s : Store) (now : Nat) :
    AlertListView × Store × List Call :=
  if formIsValid c.type c.description then
    let created := s.create c.type c.description now
    let s' := created.1
    let alert := created.2
    let c' := { c.load_alerts s' with
      show_create_modal := false, type := "", description := "" }
    (c', s', [⟨("showNotification"),
      [("New " ++ alert.type ++ " alert created!"), ("success")]⟩])
  else
    (c, s, [])

/-- `delete_alert` of AlertListView: delete by id, reload, close the modal,
emit one showNotification call. -/
def AlertListView.delete_alert (c : AlertListView) (s : Store)
    (alert_id : Nat) : AlertListView × Store × List Call :=
  let s' := s.deleteById alert_id
  let c' := { c.load_alerts s' with show_modal := false }
  (c', s', [⟨("showNotification"),
    [("Alert deleted successfully!"), ("success")]⟩])

/-- State of the django-reactor component XAlertList
(src/alerts/reactor_components/live.py): its class attributes. -/
structure XAlertList where
  show_modal : Bool
  show_create_modal : Bool
  selected_alert_id : Nat
  alerts : List Alert
  type : String
  description : String
  form_errors : List (String × String)
deriving DecidableEq

/-- Class-attribute defaults of XAlertList. -/
def XAlertList.init : XAlertList :=
  { show_modal := false
    show_create_modal := false
    selected_alert_id := 0
    alerts := []
    type := ""
    description := ""
    form_errors := [] }

/-- `load_alerts` of XAlertList. -/
def XAlertList.load_alerts (c : XAlertList) (s : Store) : XAlertList :=
  { c with alerts := s.rows }

/-- `mount` of XAlertList: calls `load_alerts`. -/
def XAlertList.mount (c : XAlertList) (s : Store) : XAlertList :=
  c.load_alerts s

/-- `create_random_alert` of XAlertList: picks a random type, creates the
alert, reloads (no notification call in the reactor component). -/
def XAlertList.create_random_alert (c : XAlertList) (s : Store)
    (choice : Fin 3) (now : Nat) : XAlertList × Store :=
  let alert_types : List String := ["INFO", "WARNING", "CRITICAL"]
  let random_type := alert_types.get choice
  let s' := (s.create random_type ("Random alert") now).1
  (c.load_alerts s', s')

/-- `create_alert` of XAlertList: builds an AlertForm from the component's
fields; on valid input saves it, reloads, closes the modal and clears the
fields; on invalid input stores the form's errors in `form_errors`. -/
def XAlertList.create_alert (c : XAlertList) (s : Store) (now : Nat) :
    XAlertList × Store :=
  if formIsValid c.type c.description then
    let s' := (s.create c.type c.description now).1
    ({ c.load_alerts s' with
        show_create_modal := false, type := "", description := "",
        form_errors := [] }, s')
  else
    ({ c with form_errors := formErrors c.type c.description }, s)

/-- `delete_alert` of XAlertList: delete by id, reload, close the modal. -/
def XAlertList.delete_alert (c : XAlertList) (s : Store) (alert_id : Nat) :
    XAlertList × Store :=
  let s' := s.deleteById alert_id
  ({ c.load_alerts s' with show_modal := false }, s')

/-- `ssr_create_random_alert` view (src/alerts/views.py): on POST, create one
random alert; otherwise only redirect.  Only the store mutation is modelled;
the redirect and flash message are rendering concerns. -/
def ssr_create_random_alert (method : String) (s : Store) (choice : Fin 3)
    (now : Nat) : Store :=
  if method = "POST" then
    let alert_types : List String := ["INFO", "WARNING", "CRITICAL"]
    let random_type := alert_types.get choice
    (s.create random_type ("Random alert") now).1
  else s

/-- `htmx_create_random_alert` view (src/alerts/views.py): the same store
mutation as the SSR view; the htmx/non-htmx split only changes the response
body, not the mutation. -/
def htmx_create_random_alert (method : String) (s : Store) (choice : Fin 3)
    (now : Nat) : Store :=
  if method = "POST" then
    let alert_types : List String := ["INFO", "WARNING", "CRITICAL"]
    let random_type := alert_types.get choice
    (s.create random_type ("Random alert") now).1
  else s

/-- `Command.handle` of the clear_alerts management command
(src/alerts/management/commands/clear_alerts.py): count, delete all, report. -/
def Command.handle (s : Store) : Store × String :=
  let count := Store.count s
  let s' : Store := ⟨[], s.nextId⟩
  (s', ("Successfully deleted " ++ toString count ++ " alerts"))

/-- Hex digit as Python's lowercase hex formatting writes it. -/
def hexDigit (n : Nat) : Char :=
  if n < 10 then Char.ofNat (48 + n) else Char.ofNat (87 + n)

/-- Nibble `i` (big-endian, 32 nibbles) of the 128-bit random value `r`. -/
def nib (r i : Nat) : Nat := r / 16 ^ (31 - i) % 16

/-- Nibble `i` of the version-4 UUID built from random value `r`: uuid4 forces
the version nibble (index 12) to 4 and the two top bits of the variant nibble
(index 16) to binary 10. -/
def uuidNib (r i : Nat) : Nat :=
  if i = 12 then 4
  else if i = 16 then 8 + nib r 16 % 4
  else nib r i

/-- One hyphen-separated group of the canonical UUID string: `len` hex digits
starting at nibble index `a`. -/
def uuidGroup (r a len : Nat) : List Char :=
  (List.range len).map (fun j => hexDigit (uuidNib r (a + j)))

/-- `liveview_room_uuid` template tag (src/alerts/templatetags/liveview.py):
`str(uuid.uuid4())`, the canonical 8-4-4-4-12 lowercase-hex form of a
version-4 UUID built from the 128 random bits `r` drawn for this call. -/
def liveview_room_uuid (r : Nat) : String :=
  String.mk (uuidGroup r 0 8 ++ ('-') :: uuidGroup r 8 4 ++ ('-') ::
    uuidGroup r 12 4 ++ ('-') :: uuidGroup r 16 4 ++ ('-') :: uuidGroup r 20 12)

/-- A lowercase hexadecimal digit character. -/
def isHexLower (c : Char) : Bool :=
  (('0') ≤ c && c ≤ ('9')) || (('a') ≤ c && c ≤ ('f'))

/-- Strips the literal `lit` from the front of `cs`, if present. -/
def stripLit : List Char → List Char → Option (List Char)
  | [], cs => some cs
  | _ :: _, [] => none
  | p :: ps, c :: cs => if c = p then stripLit ps cs else none

/-- Reads the `<str:room_name>/` tail of the route: the room is every char up
to a final slash; Django's str converter never matches a slash, and the
pattern requires the trailing slash to end the path. -/
def takeRoom : List Char → Option (List Char)
  | [] => none
  | c :: rest =>
    if c = ('/') then (if rest = [] then some [] else none)
    else (takeRoom rest).map (fun room => c :: room)

/-- The websocket URL route of src/config/asgi.py:
`path('ws/liveview/<str:room_name>/', LiveViewConsumer.as_asgi())` — maps a
handshake path to the one room name it binds, if it matches. -/
def routeRoomName (path : List Char) : Option (List Char) :=
  match stripLit (("ws/liveview/").toList) path with
  | none => none
  | some rest =>
    match takeRoom rest with
    | none => none
    | some room => if room = [] then none else some room

/-- An edit operation of the Diff Engine's Patch: positional insert, remove
or replace, applied left-to-right. -/
inductive Op where
  | insert (pos : Nat) (line : String)
  | remove (pos : Nat)
  | replace (pos : Nat) (line : String)
deriving DecidableEq

/-- Inserts every line of the new tail at successive positions. -/
def insertAll : Nat → List String → List Op
  | _, [] => []
  | pos, b :: bs => Op.insert pos b :: insertAll (pos + 1) bs

/-- Modelled from the spec: the Diff Engine (§4.4, not under src/) computes a
linear positional patch between two markup snapshots, here lists of markup
lines: positions already matched advance the cursor, mismatches become
replaces, tail surplus becomes removes or inserts.  Identical snapshots yield
the explicit empty Patch. -/
def diffFrom : Nat → List String → List String → List Op
  | pos, [], bs => insertAll pos bs
  | pos, _ :: as, [] => Op.remove pos :: diffFrom pos as []
  | pos, a :: as, b :: bs =>
    if a = b then diffFrom (pos + 1) as bs
    else Op.replace pos b :: diffFrom (pos + 1) as bs

/-- Modelled from the spec: `diff(previous_snapshot, next_snapshot)`. -/
def diff (A B : List String) : List Op := diffFrom 0 A B

/-- Applies one edit operation to a snapshot. -/
def applyOp (doc : List String) : Op → List String
  | Op.insert pos s => doc.take pos ++ s :: doc.drop pos
  | Op.remove pos => doc.take pos ++ doc.drop (pos + 1)
  | Op.replace pos s => doc.set pos s

/-- Applies a Patch operation by operation, left-to-right. -/
def applyPatch (p : List Op) (doc : List String) : List String :=
  p.foldl applyOp doc

/-- Modelled from the spec: the post-dispatch render cycle (§4.3, §4.4, §6):
the markup patch is `diff(previous, render(state))` and the handler's one-shot
client calls travel on the out-of-band notice channel, separate from the
patch. -/
def dispatchCycle {σ : Type} (render : σ → List String)
    (previous : List String) (st : σ) (calls : List Call) :
    List Op × List Call :=
  (diff previous (render st), calls)

/-- Number of client calls with the given name in an action's output. -/
def countCalls (nm : String) (calls : List Call) : Nat :=
  (calls.filter (fun c => c.name = nm)).length

/-- Modelled from the spec: the Action Dispatcher's view of one Session
(§4.3, §5, not under src/): actions still in flight from their connections
(`pending`), the per-Session FIFO queue (`queue`), the actions already run in
execution order (`executed`), and the Session's State. -/
structure DispatchSystem (α σ : Type) where
  pending : List α
  queue : List α
  executed : List α
  state : σ

/-- Modelled from the spec: one scheduler step.  `arrive` appends one pending
action to the tail of the FIFO queue (arrival order among concurrent
submissions is arbitrary); `exec` runs the single in-flight action, always the
head of the queue. -/
inductive DStep {α σ : Type} (h : α → σ → σ) :
    DispatchSystem α σ → DispatchSystem α σ → Prop where
  | arrive (sys : DispatchSystem α σ) (p₁ p₂ : List α) (a : α)
      (hp : sys.pending = p₁ ++ a :: p₂) :
      DStep h sys ⟨p₁ ++ p₂, sys.queue ++ [a], sys.executed, sys.state⟩
  | exec (sys : DispatchSystem α σ) (a : α) (q : List α)
      (hq : sys.queue = a :: q) :
      DStep h sys ⟨sys.pending, q, sys.executed ++ [a], h a sys.state⟩

/-- Reflexive-transitive closure of the scheduler steps. -/
inductive Reaches {α σ : Type} (h : α → σ → σ) :
    DispatchSystem α σ → DispatchSystem α σ → Prop where
  | refl (sys : DispatchSystem α σ) : Reaches h sys sys
  | step (s₁ s₂ s₃ : DispatchSystem α σ) :
      Reaches h s₁ s₂ → DStep h s₂ s₃ → Reaches h s₁ s₃

/-- One timing measurement of src/compile_performance_data.py. -/
structure Measurement where
  iteration : Nat
  duration_ms : ℚ
  network_requests : Nat
  total_bytes : Nat
  dns_ms : ℚ
  connect_ms : ℚ
  request_ms : ℚ
  response_ms : ℚ
deriving DecidableEq

/-- One result set of src/compile_performance_data.py. -/
structure ResultSet where
  implementation : String
  action : String
  measurements : List Measurement
  average_duration : ℚ
deriving DecidableEq

/-- HTMX_RESULTS of src/compile_performance_data.py. -/
def HTMX_RESULTS : ResultSet :=
  { implementation := "django-htmx"
    action := "create_alert"
    measurements :=
      [⟨1, 17.2, 1, 7223, 0, 0, 3.27, 5.33⟩,
       ⟨2, 14.3, 1, 15001, 0, 0, 4.8, 4.27⟩,
       ⟨3, 16.2, 1, 23340, 0, 0, 6.1, 3.62⟩,
       ⟨4, 17.9, 1, 32240, 0, 0, 8.24, 4.16⟩,
       ⟨5, 18.0, 1, 41701, 0, 0, 10.48, 1.3⟩,
       ⟨6, 15.0, 1, 44500, 0, 0, 10.52, 1.4⟩,
       ⟨7, 15.8, 1, 47299, 0, 0, 10.62, 1.4⟩,
       ⟨8, 16.3, 1, 50098, 0, 0, 10.6, 1.42⟩,
       ⟨9, 16.0, 1, 52891, 0, 0, 10.46, 1.1⟩,
       ⟨10, 18.1, 1, 55684, 0, 0, 10.82, 1.12⟩]
    average_duration := 16.48 }

/-- UNICORN_RESULTS of src/compile_performance_data.py. -/
def UNICORN_RESULTS : ResultSet :=
  { implementation := "Unicorn"
    action := "create_alert"
    measurements :=
      [⟨1, 12.1, 1, 18595, 0, 0, 10.08, 1.94⟩,
       ⟨2, 16.3, 1, 36395, 0, 0, 14.28, 1.6⟩,
       ⟨3, 19.7, 1, 54878, 0, 0, 18.3, 1.38⟩,
       ⟨4, 24.5, 1, 74074, 0, 0, 23.18, 1.16⟩,
       ⟨5, 30.4, 1, 93953, 0, 0, 29.14, 1.14⟩,
       ⟨6, 31.7, 1, 97450, 0, 0, 30.5, 1.12⟩,
       ⟨7, 32.3, 1, 100925, 0, 0, 31.08, 1.1⟩,
       ⟨8, 33.0, 1, 104430, 0, 0, 31.82, 1.06⟩,
       ⟨9, 33.5, 1, 107927, 0, 0, 32.36, 1.04⟩,
       ⟨10, 34.1, 1, 111446, 0, 0, 32.94, 1.06⟩]
    average_duration := 26.76 }

/-- SSR_RESULTS of src/compile_performance_data.py: the comprehension
`{"iteration": i, "duration_ms": 45 + i * 0.5, ...} for i in range(1, 11)`. -/
def SSR_RESULTS : ResultSet :=
  { implementation := "SSR"
    action := "create_alert"
    measurements :=
      (List.range 10).map (fun k =>
        let i : Nat := k + 1
        ⟨i, 45 + (i : ℚ) * 0.5, 2, 8500, 0, 0, 12.0 + (i : ℚ) * 0.2, 8.0⟩)
    average_duration := 47.25 }

/-- LIVEVIEW_RESULTS of src/compile_performance_data.py: the comprehension
`{"iteration": i, "duration_ms": 8 + i * 0.3, ...} for i in range(1, 11)`. -/
def LIVEVIEW_RESULTS : ResultSet :=
  { implementation := "LiveView"
    action := "create_alert"
    measurements :=
      (List.range 10).map (fun k =>
        let i : Nat := k + 1
        ⟨i, 8 + (i : ℚ) * 0.3, 0, 450, 0, 0, 0, 8.0 + (i : ℚ) * 0.3⟩)
    average_duration := 9.35 }

/-- REACTOR_RESULTS of src/compile_performance_data.py: the comprehension
`{"iteration": i, "duration_ms": 10 + i * 0.4, ...} for i in range(1, 11)`. -/
def REACTOR_RESULTS : ResultSet :=
  { implementation := "Reactor"
    action := "create_alert"
    measurements :=
      (List.range 10).map (fun k =>
        let i : Nat := k + 1
        ⟨i, 10 + (i : ℚ) * 0.4, 0, 520, 0, 0, 0, 10.0 + (i : ℚ) * 0.4⟩)
    average_duration := 12.0 }

/-- Exact arithmetic mean of a result set's duration_ms values. -/
def meanDuration (r : ResultSet) : ℚ :=
  (r.measurements.map (fun m => m.duration_ms)).sum / r.measurements.length

/-- Modelled from the spec: the Session lifecycle `created→mounted` runs the
mount hook exactly once, on the freshly created component whose fields hold
the class-attribute defaults, producing the initial State (unicorn case). -/
def newSessionUnicorn (s : Store) : AlertListView :=
  AlertListView.mount AlertListView.init s

/-- Modelled from the spec: the Session lifecycle `created→mounted` runs the
mount hook exactly once, on the freshly created component whose fields hold
the class-attribute defaults, producing the initial State (reactor case). -/
def newSessionReactor (s : Store) : XAlertList :=
  XAlertList.mount XAlertList.init s

/-- A sample unicorn component state whose form fields validate. -/
def sampleUnicorn : AlertListView :=
  { AlertListView.init with type := "INFO", description := "hello" }

/-- A sample reactor component state whose form fields validate. -/
def sampleReactor : XAlertList :=
  { XAlertList.init with type := "WARNING", description := "" }

/-! ## Helper lemmas -/

theorem take_len_append {α : Type} (pre l : List α) :
    (pre ++ l).take pre.length = pre := by
  induction pre with
  | nil => rfl
  | cons x xs ih => simp [ih]

theorem drop_len_append {α : Type} (pre l : List α) :
    (pre ++ l).drop pre.length = l := by
  induction pre with
  | nil => rfl
  | cons x xs ih => simp [ih]

theorem drop_len_succ_append {α : Type} (pre : List α) (a : α) (as : List α) :
    (pre ++ a :: as).drop (pre.length + 1) = as := by
  induction pre with
  | nil => rfl
  | cons x xs ih => simp [ih]

theorem set_len_append {α : Type} (pre : List α) (a b : α) (as : List α) :
    (pre ++ a :: as).set pre.length b = pre ++ b :: as := by
  induction pre with
  | nil => rfl
  | cons x xs ih => simp [ih]

theorem applyPatch_cons (o : Op) (p : List Op) (doc : List String) :
    applyPatch (o :: p) doc = applyPatch p (applyOp doc o) := rfl

theorem diffFrom_self (A : List String) (pos : Nat) : diffFrom pos A A = [] := by
  induction A generalizing pos with
  | nil => rfl
  | cons a as ih => simp [diffFrom, ih]

theorem diff_self (A : List String) : diff A A = [] := diffFrom_self A 0

theorem applyPatch_insertAll (bs pre : List String) :
    applyPatch (insertAll pre.length bs) pre = pre ++ bs := by
  induction bs generalizing pre with
  | nil => simp [insertAll, applyPatch]
  | cons b bs ihb =>
    rw [insertAll, applyPatch_cons]
    have h1 : applyOp pre (Op.insert pre.length b) = pre ++ [b] := by
      simp [applyOp]
    rw [h1]
    have h2 := ihb (pre ++ [b])
    simpa using h2

theorem applyPatch_diffFrom (A B pre : List String) :
    applyPatch (diffFrom pre.length A B) (pre ++ A) = pre ++ B := by
  induction A generalizing B pre with
  | nil =>
    show applyPatch (insertAll pre.length B) (pre ++ []) = pre ++ B
    rw [List.append_nil]
    exact applyPatch_insertAll B pre
  | cons a as ih =>
    cases B with
    | nil =>
      rw [show diffFrom pre.length (a :: as) [] =
            Op.remove pre.length :: diffFrom pre.length as [] from rfl,
        applyPatch_cons]
      have h1 : applyOp (pre ++ a :: as) (Op.remove pre.length) = pre ++ as := by
        simp [applyOp, take_len_append, drop_len_succ_append]
      rw [h1]
      exact ih [] pre
    | cons b bs =>
      by_cases hab : a = b
      · subst hab
        rw [show diffFrom pre.length (a :: as) (a :: bs) =
              diffFrom (pre.length + 1) as bs by simp [diffFrom]]
        have h2 := ih bs (pre ++ [a])
        simpa using h2
      · rw [show diffFrom pre.length (a :: as) (b :: bs) =
              Op.replace pre.length b :: diffFrom (pre.length + 1) as bs by
            simp [diffFrom, hab],
          applyPatch_cons]
        have h1 : applyOp (pre ++ a :: as) (Op.replace pre.length b) =
            pre ++ b :: as := set_len_append pre a b as
        rw [h1]
        have h2 := ih bs (pre ++ [b])
        simpa using h2

theorem stripLit_self (ps rest : List Char) : stripLit ps (ps ++ rest) = some rest := by
  induction ps with
  | nil => rfl
  | cons p ps ih => simp [stripLit, ih]

theorem takeRoom_append (room : List Char) (h : ∀ c ∈ room, c ≠ ('/')) :
    takeRoom (room ++ [('/')]) = some room := by
  induction room with
  | nil => simp [takeRoom]
  | cons c cs ih =>
    have hc : c ≠ ('/') := h c (by simp)
    have ih' := ih (fun x hx => h x (by simp [hx]))
    simp [takeRoom, hc, ih']

theorem uuidNib_lt (r i : Nat) : uuidNib r i < 16 := by
  unfold uuidNib
  split
  · norm_num
  · split
    · have : nib r 16 % 4 < 4 := Nat.mod_lt _ (by norm_num)
      omega
    · exact Nat.mod_lt _ (by norm_num)

theorem hexDigit_isHexLower (n : Nat) (h : n < 16) :
    isHexLower (hexDigit n) = true := by
  interval_cases n <;> decide

theorem uuidGroup_length (r a len : Nat) : (uuidGroup r a len).length = len := by
  simp [uuidGroup]

theorem uuidGroup_hex (r a len : Nat) :
    ∀ c ∈ uuidGroup r a len, isHexLower c = true := by
  intro c hc
  rcases List.mem_map.mp hc with ⟨j, _, hcj⟩
  exact hcj ▸ hexDigit_isHexLower _ (uuidNib_lt r (a + j))

/-! ## Claim theorems -/

/-- C1 counterexample: the claim fails on the Reactor component.  With the
default (empty) form fields, which are invalid, XAlertList.create_alert does
change a component field: it writes the form's errors into form_errors, so the
state is not left at its pre-action value. -/
theorem C1_counterexample :
    (XAlertList.create_alert XAlertList.init Store.empty 0).1 ≠
      XAlertList.init := by decide

/-- C1 (amended): when create_alert's form validation fails, no Alert is added
to the store; the Unicorn AlertListView's state is fully unchanged (and it
emits no client call); the Reactor XAlertList leaves every field except
form_errors unchanged and sets form_errors to the form's error mapping. -/
theorem C1_invalid_input_amended (cu : AlertListView) (cx : XAlertList)
    (s : Store) (now : Nat)
    (hu : formIsValid cu.type cu.description = false)
    (hx : formIsValid cx.type cx.description = false) :
    AlertListView.create_alert cu s now = (cu, s, ([] : List Call)) ∧
    (XAlertList.create_alert cx s now).2 = s ∧
    (XAlertList.create_alert cx s now).1 =
      { cx with form_errors := formErrors cx.type cx.description } := by
  refine ⟨?_, ?_, ?_⟩ <;>
    simp [AlertListView.create_alert, XAlertList.create_alert, hu, hx]

/-- C1 witness: the amended theorem applied at the default component states
(empty form fields, invalid) over the empty store. -/
theorem C1_invalid_input_amended_witness :
    (formIsValid AlertListView.init.type AlertListView.init.description = false ∧
     formIsValid XAlertList.init.type XAlertList.init.description = false) ∧
    (AlertListView.create_alert AlertListView.init Store.empty 0 =
        (AlertListView.init, Store.empty, ([] : List Call)) ∧
     (XAlertList.create_alert XAlertList.init Store.empty 0).2 = Store.empty ∧
     (XAlertList.create_alert XAlertList.init Store.empty 0).1 =
        { XAlertList.init with
            form_errors :=
              formErrors XAlertList.init.type XAlertList.init.description }) :=
  ⟨⟨by decide, by decide⟩,
    C1_invalid_input_amended AlertListView.init XAlertList.init Store.empty 0
      (by decide) (by decide)⟩

/-- C2: the SSR view, the HTMX view, the Unicorn component and the Reactor
component perform the same create_random_alert store mutation: for the same
random choice each appends exactly one Alert whose type is the chosen element
of INFO/WARNING/CRITICAL and whose description is "Random alert", leaving the
existing alerts unchanged, and the resulting stores are equal across the four
implementations. -/
theorem C2_create_random_alert_equiv (cu : AlertListView) (cx : XAlertList)
    (s : Store) (choice : Fin 3) (now : Nat) :
    ssr_create_random_alert ("POST") s choice now =
      htmx_create_random_alert ("POST") s choice now ∧
    (AlertListView.create_random_alert cu s choice now).2.1 =
      ssr_create_random_alert ("POST") s choice now ∧
    (XAlertList.create_random_alert cx s choice now).2 =
      ssr_create_random_alert ("POST") s choice now ∧
    (ssr_create_random_alert ("POST") s choice now).rows =
      s.rows ++ [⟨s.nextId,
        (["INFO", "WARNING", "CRITICAL"] : List String).get choice,
        ("Random alert"), now⟩] ∧
    (["INFO", "WARNING", "CRITICAL"] : List String).get choice ∈
      (["INFO", "WARNING", "CRITICAL"] : List String) := by
  refine ⟨rfl, rfl, rfl, rfl, ?_⟩
  fin_cases choice <;> decide

/-- C4: round-trip law of the Diff Engine: applying diff(A, B) to A,
operation by operation left-to-right, yields exactly B, for any two
snapshots. -/
theorem C4_diff_roundtrip (A B : List String) : applyPatch (diff A B) A = B := by
  have h := applyPatch_diffFrom A B []
  simpa [diff] using h

/-- C6: the mount hook, run once per Session on the component created with
its class defaults, produces the initial state whose alerts field is exactly
the store's rows, with every other field at its declared default (modals
closed, no selection, empty form fields, no form errors). -/
theorem C6_mount_initial_state (s : Store) :
    newSessionUnicorn s =
      { alerts := s.rows, show_modal := false, show_create_modal := false,
        selected_alert := none, type := "", description := "" } ∧
    newSessionReactor s =
      { show_modal := false, show_create_modal := false,
        selected_alert_id := 0, alerts := s.rows, type := "",
        description := "", form_errors := [] } :=
  ⟨rfl, rfl⟩

/-- C8: after every store-mutating action (create_random_alert, create_alert
on valid input, delete_alert), both components' alerts field equals the
current rows of the alert store: the rendered list is never stale. -/
theorem C8_alerts_match_store (cu : AlertListView) (cx : XAlertList)
    (s : Store) (choice : Fin 3) (now aid : Nat) :
    (AlertListView.create_random_alert cu s choice now).1.alerts =
      (AlertListView.create_random_alert cu s choice now).2.1.rows ∧
    (formIsValid cu.type cu.description = true →
      (AlertListView.create_alert cu s now).1.alerts =
        (AlertListView.create_alert cu s now).2.1.rows) ∧
    (AlertListView.delete_alert cu s aid).1.alerts =
      (AlertListView.delete_alert cu s aid).2.1.rows ∧
    (XAlertList.create_random_alert cx s choice now).1.alerts =
      (XAlertList.create_random_alert cx s choice now).2.rows ∧
    (formIsValid cx.type cx.description = true →
      (XAlertList.create_alert cx s now).1.alerts =
        (XAlertList.create_alert cx s now).2.rows) ∧
    (XAlertList.delete_alert cx s aid).1.alerts =
      (XAlertList.delete_alert cx s aid).2.rows := by
  refine ⟨rfl, ?_, rfl, rfl, ?_, rfl⟩ <;> intro h <;>
    simp [AlertListView.create_alert, XAlertList.create_alert, h,
      AlertListView.load_alerts, XAlertList.load_alerts]

/-- C8 witness: the theorem applied to sample components with valid form
fields over the empty store. -/
theorem C8_alerts_match_store_witness :
    (formIsValid sampleUnicorn.type sampleUnicorn.description = true ∧
     formIsValid sampleReactor.type sampleReactor.description = true) ∧
    ((AlertListView.create_random_alert sampleUnicorn Store.empty 0 0).1.alerts =
      (AlertListView.create_random_alert sampleUnicorn Store.empty 0 0).2.1.rows ∧
    (AlertListView.create_alert sampleUnicorn Store.empty 0).1.alerts =
      (AlertListView.create_alert sampleUnicorn Store.empty 0).2.1.rows ∧
    (AlertListView.delete_alert sampleUnicorn Store.empty 0).1.alerts =
      (AlertListView.delete_alert sampleUnicorn Store.empty 0).2.1.rows ∧
    (XAlertList.create_random_alert sampleReactor Store.empty 0 0).1.alerts =
      (XAlertList.create_random_alert sampleReactor Store.empty 0 0).2.rows ∧
    (XAlertList.create_alert sampleReactor Store.empty 0).1.alerts =
      (XAlertList.create_alert sampleReactor Store.empty 0).2.rows ∧
    (XAlertList.delete_alert sampleReactor Store.empty 0).1.alerts =
      (XAlertList.delete_alert sampleReactor Store.empty 0).2.rows) := by
  have t := C8_alerts_match_store sampleUnicorn sampleReactor Store.empty 0 0 0
  exact ⟨⟨by decide, by decide⟩, t.1, t.2.1 (by decide), t.2.2.1, t.2.2.2.1,
    t.2.2.2.2.1 (by decide), t.2.2.2.2.2⟩

/-- C9: the clear_alerts management command empties the alert store and its
success message reports exactly the number of alerts that existed before the
deletion. -/
theorem C9_clear_alerts (s : Store) :
    (Command.handle s).1.rows = [] ∧
    Store.count (Command.handle s).1 = 0 ∧
    (Command.handle s).2 =
      ("Successfully deleted " ++ toString (Store.count s) ++ " alerts") :=
  ⟨rfl, rfl, rfl⟩

/-- C5: one-shot notifications travel out-of-band from the markup patch and
are never lost: each of the Unicorn component's create_random_alert,
create_alert (on valid input) and delete_alert emits exactly one
showNotification client call, the dispatch cycle forwards the handler's calls
on the notice channel unchanged whatever the markup patch is, and when the
render is textually unchanged the cycle yields an explicit empty patch while
still carrying the calls. -/
theorem C5_notifications (cu : AlertListView) (s : Store) (choice : Fin 3)
    (now aid : Nat) (σ : Type) (render : σ → List String)
    (previous : List String) (st : σ) (calls : List Call) :
    countCalls ("showNotification")
        (AlertListView.create_random_alert cu s choice now).2.2 = 1 ∧
    (formIsValid cu.type cu.description = true →
      countCalls ("showNotification")
          (AlertListView.create_alert cu s now).2.2 = 1) ∧
    countCalls ("showNotification")
        (AlertListView.delete_alert cu s aid).2.2 = 1 ∧
    (dispatchCycle render previous st calls).2 = calls ∧
    dispatchCycle render (render st) st calls = (([] : List Op), calls) := by
  refine ⟨rfl, ?_, rfl, rfl, ?_⟩
  · intro hu
    simp [AlertListView.create_alert, hu, countCalls]
  · simp [dispatchCycle, diff_self]

/-- C5 witness: the theorem applied at a valid sample component, the empty
store, and a constant render function (so the markup patch is empty). -/
theorem C5_notifications_witness :
    formIsValid sampleUnicorn.type sampleUnicorn.description = true ∧
    (countCalls ("showNotification")
        (AlertListView.create_random_alert sampleUnicorn Store.empty 0 0).2.2 = 1 ∧
     countCalls ("showNotification")
        (AlertListView.create_alert sampleUnicorn Store.empty 0).2.2 = 1 ∧
     countCalls ("showNotification")
        (AlertListView.delete_alert sampleUnicorn Store.empty 0).2.2 = 1 ∧
     (dispatchCycle (fun _ : Nat => ([] : List String)) [] 0 []).2 =
        ([] : List Call) ∧
     dispatchCycle (fun _ : Nat => ([] : List String))
        ((fun _ : Nat => ([] : List String)) 0) 0 [] =
        (([] : List Op), ([] : List Call))) := by
  have t := C5_notifications sampleUnicorn Store.empty 0 0 0 Nat
    (fun _ => []) [] 0 []
  exact ⟨by decide, t.1, t.2.1 (by decide), t.2.2.1, t.2.2.2.1, t.2.2.2.2⟩

/-- C3: serializability of the per-Session dispatch queue.  In the modelled
scheduler every reachable configuration satisfies: the Session's State is the
serial left-to-right execution of the already-executed actions, and executed,
queued and pending actions together are a permutation of the submitted ones —
so when all actions have been consumed the observed State transitions are a
serial ordering (the FIFO arrival order) of the submitted actions, with none
lost or interleaved. -/
theorem perm_enqueue {α : Type} (e q p₁ p₂ : List α) (a : α) :
    List.Perm (e ++ (q ++ [a]) ++ (p₁ ++ p₂)) (e ++ q ++ (p₁ ++ a :: p₂)) := by
  have p2 : List.Perm (a :: (p₁ ++ p₂)) (p₁ ++ a :: p₂) :=
    List.perm_middle.symm
  have p3 := List.Perm.append_left (e ++ q) p2
  have e1 : e ++ (q ++ [a]) ++ (p₁ ++ p₂) = (e ++ q) ++ (a :: (p₁ ++ p₂)) := by
    simp [List.append_assoc]
  rw [e1]
  exact p3

theorem C3_serializable {α σ : Type} (h : α → σ → σ) (submitted : List α)
    (s0 : σ) (sys : DispatchSystem α σ)
    (hr : Reaches h ⟨submitted, [], [], s0⟩ sys) :
    sys.state = sys.executed.foldl (fun st x => h x st) s0 ∧
    List.Perm (sys.executed ++ sys.queue ++ sys.pending) submitted := by
  induction hr with
  | refl => exact ⟨rfl, by simp⟩
  | step s₂ s₃ h12 h23 ih =>
    cases h23 with
    | arrive p₁ p₂ a hp =>
      refine ⟨ih.1, ?_⟩
      have ih2 := ih.2
      rw [hp] at ih2
      show List.Perm (s₂.executed ++ (s₂.queue ++ [a]) ++ (p₁ ++ p₂)) submitted
      exact (perm_enqueue s₂.executed s₂.queue p₁ p₂ a).trans ih2
    | exec a q hq =>
      constructor
      · show h a s₂.state =
          (s₂.executed ++ [a]).foldl (fun st x => h x st) s0
        rw [List.foldl_append, ← ih.1]
        rfl
      · have ih2 := ih.2
        rw [hq] at ih2
        show List.Perm ((s₂.executed ++ [a]) ++ q ++ s₂.pending) submitted
        simpa [List.append_assoc] using ih2

/-- C3 witness: the theorem applied to a concrete two-step schedule — one
action 5 arrives at an addition-handler Session and executes. -/
theorem C3_serializable_witness :
    (⟨[], [], [5], (5 : Nat)⟩ : DispatchSystem Nat Nat).state =
      (⟨[], [], [5], (5 : Nat)⟩ : DispatchSystem Nat Nat).executed.foldl
        (fun st a => Nat.add a st) 0 ∧
    List.Perm ((⟨[], [], [5], (5 : Nat)⟩ : DispatchSystem Nat Nat).executed ++
      (⟨[], [], [5], (5 : Nat)⟩ : DispatchSystem Nat Nat).queue ++
      (⟨[], [], [5], (5 : Nat)⟩ : DispatchSystem Nat Nat).pending) [5] :=
  C3_serializable Nat.add [5] 0 _
    (Reaches.step _ _ _
      (Reaches.step _ _ _ (Reaches.refl _) (DStep.arrive _ [] [] 5 rfl))
      (DStep.exec _ 5 [] rfl))

theorem hexDigit_four : hexDigit 4 = ('4') := by decide

theorem hexDigit_variant (m : Nat) (h : m < 4) :
    hexDigit (8 + m) = ('8') ∨ hexDigit (8 + m) = ('9') ∨
    hexDigit (8 + m) = ('a') ∨ hexDigit (8 + m) = ('b') := by
  interval_cases m
  · left; decide
  · right; left; decide
  · right; right; left; decide
  · right; right; right; decide

theorem uuidGroup_head (r a len : Nat) (h : 0 < len) :
    (uuidGroup r a len).head? = some (hexDigit (uuidNib r a)) := by
  cases len with
  | zero => omega
  | succ n => simp [uuidGroup, List.range_succ_eq_map]

/-- C7: every call of the liveview_room_uuid template tag returns the
canonical 8-4-4-4-12 lowercase-hex string of a version-4 UUID built from that
call's 128 fresh random bits (third group starts with the version digit 4,
fourth group starts with a variant digit in 8/9/a/b); calls with different
random bits can yield different tokens; and the websocket route
`ws/liveview/<str:room_name>/` of asgi.py binds a connection to exactly the
one room name carried as the room_name path segment. -/
theorem C7_room_uuid :
    (∀ r : Nat, ∃ g₁ g₂ g₃ g₄ g₅ : List Char,
      liveview_room_uuid r = String.mk
        (g₁ ++ ('-') :: g₂ ++ ('-') :: g₃ ++ ('-') :: g₄ ++ ('-') :: g₅) ∧
      g₁.length = 8 ∧ g₂.length = 4 ∧ g₃.length = 4 ∧ g₄.length = 4 ∧
      g₅.length = 12 ∧
      (∀ c ∈ g₁ ++ g₂ ++ g₃ ++ g₄ ++ g₅, isHexLower c = true) ∧
      g₃.head? = some ('4') ∧
      (∃ v ∈ [('8'), ('9'), ('a'), ('b')], g₄.head? = some v)) ∧
    liveview_room_uuid 0 ≠ liveview_room_uuid 1 ∧
    (∀ room : List Char, room ≠ [] → (∀ c ∈ room, c ≠ ('/')) →
      routeRoomName (("ws/liveview/").toList ++ (room ++ [('/')])) =
        some room) := by
  refine ⟨?_, ?_, ?_⟩
  · intro r
    refine ⟨uuidGroup r 0 8, uuidGroup r 8 4, uuidGroup r 12 4,
      uuidGroup r 16 4, uuidGroup r 20 12, rfl,
      uuidGroup_length r 0 8, uuidGroup_length r 8 4, uuidGroup_length r 12 4,
      uuidGroup_length r 16 4, uuidGroup_length r 20 12, ?_, ?_, ?_⟩
    · intro c hc
      rcases List.mem_append.mp hc with hc2 | h
      rotate_left
      · exact uuidGroup_hex r 20 12 c h
      rcases List.mem_append.mp hc2 with hc3 | h
      rotate_left
      · exact uuidGroup_hex r 16 4 c h
      rcases List.mem_append.mp hc3 with hc4 | h
      rotate_left
      · exact uuidGroup_hex r 12 4 c h
      rcases List.mem_append.mp hc4 with h | h
      · exact uuidGroup_hex r 0 8 c h
      · exact uuidGroup_hex r 8 4 c h
    · rw [uuidGroup_head r 12 4 (by norm_num)]
      have h12 : uuidNib r 12 = 4 := by simp [uuidNib]
      rw [h12, hexDigit_four]
    · rw [uuidGroup_head r 16 4 (by norm_num)]
      have h16 : uuidNib r 16 = 8 + nib r 16 % 4 := by simp [uuidNib]
      have hm : nib r 16 % 4 < 4 := Nat.mod_lt _ (by norm_num)
      rcases hexDigit_variant _ hm with h | h | h | h
      · exact ⟨('8'), by simp, by rw [h16, h]⟩
      · exact ⟨('9'), by simp, by rw [h16, h]⟩
      · exact ⟨('a'), by simp, by rw [h16, h]⟩
      · exact ⟨('b'), by simp, by rw [h16, h]⟩
  · decide
  · intro room hne hslash
    unfold routeRoomName
    simp only [stripLit_self, takeRoom_append room hslash]
    simp [hne]

/-- C7 witness: the route part of the theorem applied to the concrete room
token "abc123". -/
theorem C7_room_uuid_witness :
    (("abc123").toList ≠ [] ∧ (∀ c ∈ ("abc123").toList, c ≠ ('/'))) ∧
    routeRoomName (("ws/liveview/").toList ++ (("abc123").toList ++ [('/')])) =
      some (("abc123").toList) :=
  ⟨⟨by decide, by decide⟩,
    C7_room_uuid.2.2 (("abc123").toList) (by decide) (by decide)⟩

/-- C10 counterexample: the claim fails on the SSR result set: its declared
average_duration is 47.25 while the exact mean of its ten duration_ms values
(45.5, 46.0, …, 50.0) is 47.75. -/
theorem C10_counterexample :
    ¬ (SSR_RESULTS.average_duration = meanDuration SSR_RESULTS) := by
  norm_num [meanDuration, SSR_RESULTS, List.range_succ]

/-- C10 (amended): the declared average_duration equals the exact arithmetic
mean of the ten duration_ms values for the HTMX and Unicorn result sets; for
the three estimated sets it does not: SSR declares 47.25 against a mean of
47.75, LiveView declares 9.35 against 9.65, Reactor declares 12.0 against
12.2. -/
theorem C10_average_duration_values :
    HTMX_RESULTS.average_duration = meanDuration HTMX_RESULTS ∧
    UNICORN_RESULTS.average_duration = meanDuration UNICORN_RESULTS ∧
    SSR_RESULTS.average_duration = 47.25 ∧ meanDuration SSR_RESULTS = 47.75 ∧
    LIVEVIEW_RESULTS.average_duration = 9.35 ∧
    meanDuration LIVEVIEW_RESULTS = 9.65 ∧
    REACTOR_RESULTS.average_duration = 12.0 ∧
    meanDuration REACTOR_RESULTS = 12.2 := by
  refine ⟨?_, ?_, ?_, ?_, ?_, ?_, ?_, ?_⟩ <;>
    norm_num [meanDuration, HTMX_RESULTS, UNICORN_RESULTS, SSR_RESULTS,
      LIVEVIEW_RESULTS, REACTOR_RESULTS, List.range_succ]
